import Mathlib

/-!
Shallow embedding of the route catalog in src/fastapi_hello_world/examples.py.
Handlers are translated directly from the source; the dispatch, parameter
coercion and response-model serialization steps performed by the surrounding
framework are modelled from the behaviour the specification describes
(sections 4.1-4.3 and 7 of spec.md): JSON values, typed parsing with a
per-field provenance set, response projection, and a response taxonomy of
success / validation failure / routing failure / application failure /
internal error.
-/

namespace FastapiHelloWorld

/-- JSON values. Numbers are modelled exactly as rationals, which JSON decimal
literals are; `int` keeps integer-typed values distinguishable. -/
inductive Json where
  | str : String → Json
  | int : Int → Json
  | num : Rat → Json
  | bool : Bool → Json
  | null : Json
  | arr : List Json → Json
  | obj : List (String × Json) → Json

/-- The observable outcome of one request, following the error taxonomy of the
spec: success with a status code and body, a 422-class validation failure
listing the offending fields, a routing failure (no route matched, 404), an
application failure raised by the handler (HTTPException: status + detail),
or an internal error from an unhandled exception in the handler (500). -/
inductive Response where
  | ok : Nat → Json → Response
  | validationFailure : List String → Response
  | routingFailure : Response
  | appFailure : Nat → String → Response
  | internalError : String → Response

/-- Field lookup in a JSON object, first occurrence of the key. -/
def lookupField (fields : List (String × Json)) (k : String) : Option Json :=
  (fields.find? (fun p => p.1 == k)).map (fun p => p.2)

/-- Required string field of a JSON object (missing or wrongly typed fields
fail validation). -/
def reqStr (fields : List (String × Json)) (k : String) : Except String String :=
  match lookupField fields k with
  | some (Json.str s) => Except.ok s
  | some _ => Except.error (k ++ ": str type expected")
  | none => Except.error (k ++ ": field required")

/-- Required float field of a JSON object; JSON integers coerce to float. -/
def reqNum (fields : List (String × Json)) (k : String) : Except String Rat :=
  match lookupField fields k with
  | some (Json.num q) => Except.ok q
  | some (Json.int n) => Except.ok (n : Rat)
  | some _ => Except.error (k ++ ": float expected")
  | none => Except.error (k ++ ": field required")

def jsonOfOptStr : Option String → Json
  | none => Json.null
  | some s => Json.str s

def jsonOfOptBool : Option Bool → Json
  | none => Json.null
  | some b => Json.bool b

/-! ## Path-parameter coercion (spec 4.2): textual int parsing -/

/-- Integer coercion of a raw path segment, as Python's int() applied by the
validation layer: surrounding whitespace stripped, an optional sign, then a
nonempty run of decimal digits. -/
def parsePyInt (s : String) : Option Int :=
  let cs := ((s.toList.dropWhile Char.isWhitespace).reverse.dropWhile
    Char.isWhitespace).reverse
  let signed : Bool × List Char :=
    match cs with
    | '-' :: rest => (true, rest)
    | '+' :: rest => (false, rest)
    | _ => (false, cs)
  if signed.2 ≠ [] ∧ signed.2.all Char.isDigit then
    let n : Nat := signed.2.foldl (fun a c => a * 10 + (c.toNat - 48)) 0
    some (if signed.1 then -(n : Int) else (n : Int))
  else none

/-! ## GET / -/

/-- Handler read_root (examples.py line 13): returns the fixed greeting. -/
def read_root : List (String × Json) := [("Hello", Json.str "World")]

/-! ## GET /items/item_id -/

/-- Handler read_item (line 22): echoes the already-coerced integer path
parameter. -/
def read_item (item_id : Int) : List (String × Json) :=
  [("item_id", Json.int item_id)]

/-- Route for GET /items/item_id: the raw segment is coerced to int before
the handler runs; a coercion failure is a validation failure naming the
parameter, and the handler is never invoked. -/
def route_items (seg : String) : Response :=
  match parsePyInt seg with
  | some n => Response.ok 200 (Json.obj (read_item n))
  | none => Response.validationFailure ["item_id: value is not a valid integer"]

/-! ## GET /model/model_name -/

/-- The ModelName enumeration (line 36). -/
inductive ModelName where
  | alexnet
  | resnet
  | lenet
  deriving DecidableEq, Repr

/-- The string value of each enumeration member. -/
def ModelName.value : ModelName → String
  | ModelName.alexnet => "alexnet"
  | ModelName.resnet => "resnet"
  | ModelName.lenet => "lenet"

/-- Enum path matching (spec 4.1): a segment matches only when it equals the
value of some member. -/
def ModelName.fromString? (s : String) : Option ModelName :=
  if s = "alexnet" then some ModelName.alexnet
  else if s = "resnet" then some ModelName.resnet
  else if s = "lenet" then some ModelName.lenet
  else none

/-- Handler get_model (line 44), branch for branch from the source. -/
def get_model (model_name : ModelName) : List (String × Json) :=
  if model_name = ModelName.alexnet then
    [("model_name", Json.str model_name.value),
     ("message", Json.str "Deep Learning FTW!")]
  else if model_name.value = "lenet" then
    [("model_name", Json.str model_name.value),
     ("message", Json.str "LeCNN all the images")]
  else
    [("model_name", Json.str model_name.value),
     ("message", Json.str "Have some residuals")]

/-- Route for GET /model/model_name: a segment outside the enumeration fails
to match the route at all, which is a not-found routing failure, not a
validation failure. -/
def route_model (seg : String) : Response :=
  match ModelName.fromString? seg with
  | some m => Response.ok 200 (Json.obj (get_model m))
  | none => Response.routingFailure

/-! ## POST /request_body/ -/

/-- Model MyRequestBody (line 87): name and price required, optional defaults
to false, truly_optional defaults to absent (null). -/
structure MyRequestBody where
  name : String
  price : Rat
  optional : Bool := false
  truly_optional : Option Bool := none
  deriving DecidableEq, Repr

/-- Validation of a JSON body against MyRequestBody. Returns the model value
together with its provenance set (the names of the model fields that were
explicitly present in the input), which drives exclude-unset serialization.
Absent optional fields take their declared default and are not in the set. -/
def MyRequestBody.parse (j : Json) :
    Except String (MyRequestBody × List String) :=
  match j with
  | Json.obj fields => do
    let name ← reqStr fields "name"
    let price ← reqNum fields "price"
    let opt ←
      match lookupField fields "optional" with
      | none => Except.ok ((false : Bool), false)
      | some (Json.bool b) => Except.ok (b, true)
      | some _ => Except.error "optional: bool type expected"
    let topt ←
      match lookupField fields "truly_optional" with
      | none => Except.ok ((none : Option Bool), false)
      | some Json.null => Except.ok (none, true)
      | some (Json.bool b) => Except.ok (some b, true)
      | some _ => Except.error "truly_optional: bool type expected"
    Except.ok (⟨name, price, opt.1, topt.1⟩,
      ["name", "price"]
        ++ (if opt.2 then ["optional"] else [])
        ++ (if topt.2 then ["truly_optional"] else []))
  | _ => Except.error "body: value is not a valid dict"

/-- Structural serialization of a MyRequestBody value: every field is
emitted, so defaults materialized at parse time appear in the output. -/
def MyRequestBody.toJson (b : MyRequestBody) : Json :=
  Json.obj [("name", Json.str b.name), ("price", Json.num b.price),
    ("optional", Json.bool b.optional),
    ("truly_optional", jsonOfOptBool b.truly_optional)]

/-- Handler post_body (line 99): echoes the validated body. -/
def post_body (body : MyRequestBody) : MyRequestBody := body

/-- Route for POST /request_body/: validate the body, run the handler,
serialize the returned model structurally (no response_model declared). -/
def route_request_body (j : Json) : Response :=
  match MyRequestBody.parse j with
  | Except.error e => Response.validationFailure [e]
  | Except.ok (b, _) => Response.ok 200 ((post_body b).toJson)

/-! ## POST /response_model/ -/

/-- Model MyResponseModel (line 346): a single required field name. -/
structure MyResponseModel where
  name : String
  deriving DecidableEq, Repr

/-- Validating construction of MyResponseModel, as pydantic performs on
instantiation: a required field that is not supplied is a validation error
raised at construction time. -/
def MyResponseModel.construct (name : Option String) :
    Except String MyResponseModel :=
  match name with
  | none => Except.error "name: field required"
  | some n => Except.ok ⟨n⟩

/-- Handler post_response_model (line 350), exactly as written: it first
instantiates MyResponseModel with no arguments and only then assigns name
from the body.  The instantiation step fails (name is required), so the
assignment is never reached and the handler raises. -/
def post_response_model (body : MyRequestBody) :
    Except String MyResponseModel :=
  match MyResponseModel.construct none with
  | Except.error e => Except.error e
  | Except.ok r => Except.ok { r with name := body.name }

/-- Route for POST /response_model/: validate the body, run the handler; an
exception escaping the handler is an internal error (500), a normal return
is projected through the declared response_model MyResponseModel. -/
def route_response_model (j : Json) : Response :=
  match MyRequestBody.parse j with
  | Except.error e => Response.validationFailure [e]
  | Except.ok (b, _) =>
    match post_response_model b with
    | Except.error e => Response.internalError e
    | Except.ok r => Response.ok 200 (Json.obj [("name", Json.str r.name)])

/-! ## POST /user/ and POST /user_no_defaults_in_response/ -/

/-- Model UserIn (line 366): username, password, email required strings;
full_name optional, defaulting to absent (null). -/
structure UserIn where
  username : String
  password : String
  email : String
  full_name : Option String := none
  deriving DecidableEq, Repr

/-- Model UserOut (line 373): UserIn minus the password field. -/
structure UserOut where
  username : String
  email : String
  full_name : Option String := none
  deriving DecidableEq, Repr

/-- Validation of a JSON body against UserIn, with the provenance set of the
fields explicitly present in the input.  A full_name supplied as null is
explicitly set (it enters the provenance set) even though its value equals
the declared default. -/
def UserIn.parse (j : Json) : Except String (UserIn × List String) :=
  match j with
  | Json.obj fields => do
    let username ← reqStr fields "username"
    let password ← reqStr fields "password"
    let email ← reqStr fields "email"
    let fn ←
      match lookupField fields "full_name" with
      | none => Except.ok ((none : Option String), false)
      | some Json.null => Except.ok (none, true)
      | some (Json.str s) => Except.ok (some s, true)
      | some _ => Except.error "full_name: str type expected"
    Except.ok (⟨username, password, email, fn.1⟩,
      ["username", "password", "email"]
        ++ (if fn.2 then ["full_name"] else []))
  | _ => Except.error "user: value is not a valid dict"

/-- The full field dictionary of a UserIn value, every declared field
included (this is what the handler returns to the serialization layer). -/
def UserIn.toDict (u : UserIn) : List (String × Json) :=
  [("username", Json.str u.username), ("password", Json.str u.password),
   ("email", Json.str u.email), ("full_name", jsonOfOptStr u.full_name)]

/-- Revalidating a UserIn value against UserOut, as the response-model layer
does: fields of the schema are taken over, the extra password field is
ignored. -/
def UserOut.ofUserIn (u : UserIn) : UserOut :=
  ⟨u.username, u.email, u.full_name⟩

/-- Structural serialization of UserOut. -/
def UserOut.toJson (u : UserOut) : Json :=
  Json.obj [("username", Json.str u.username), ("email", Json.str u.email),
    ("full_name", jsonOfOptStr u.full_name)]

/-- The field names of the UserOut schema. -/
def userOutFieldNames : List String := ["username", "email", "full_name"]

/-- Handler create_user (line 380): returns the UserIn value unchanged,
password included. -/
def create_user (user : UserIn) : UserIn := user

/-- Route for POST /user/ with response_model UserOut: the returned UserIn
is revalidated against UserOut, which drops the password. -/
def route_user (j : Json) : Response :=
  match UserIn.parse j with
  | Except.error e => Response.validationFailure [e]
  | Except.ok (u, _) =>
    Response.ok 200 (UserOut.toJson (UserOut.ofUserIn (create_user u)))

/-- Handler create_user_no_defaults_in_response (line 399): returns the
UserIn value unchanged. -/
def create_user_no_defaults_in_response (user : UserIn) : UserIn := user

/-- Route for POST /user_no_defaults_in_response/ with response_model UserOut
and response_model_exclude_unset: the returned value is serialized keeping
only fields in the provenance set of the request that produced it, then
projected onto the UserOut schema fields. -/
def route_user_no_defaults (j : Json) : Response :=
  match UserIn.parse j with
  | Except.error e => Response.validationFailure [e]
  | Except.ok (u, fieldsSet) =>
    Response.ok 200 (Json.obj
      (((create_user_no_defaults_in_response u).toDict.filter
          (fun p => fieldsSet.contains p.1)).filter
        (fun p => userOutFieldNames.contains p.1)))

/-! ## GET /items_exception/item_id -/

/-- First-match lookup in an association table, as Python dict membership
and indexing over the modelled tables. -/
def lookupTable (table : List (String × String)) (k : String) :
    Option String :=
  (table.find? (fun p => p.1 == k)).map (fun p => p.2)

/-- The process-wide lookup table items_exception (line 581). -/
def items_exception : List (String × String) := [("foo", "The Foo Wrestlers")]

/-- Handler get_item_exception (line 584) over an explicit table: a missing
key raises HTTPException(404, "Item not found"), a present key returns its
value under the item field. -/
def get_item_exception (table : List (String × String)) (item_id : String) :
    Response :=
  match lookupTable table item_id with
  | none => Response.appFailure 404 "Item not found"
  | some v => Response.ok 200 (Json.obj [("item", Json.str v)])

/-- Route for GET /items_exception/item_id against the process-wide table. -/
def route_items_exception (item_id : String) : Response :=
  get_item_exception items_exception item_id

/-! ## Remaining GET handlers of the catalog -/

/-- Handler get_query (line 62): ignores its query parameters and returns a
fixed object. -/
def get_query : List (String × Json) := [("hello", Json.str "world")]

def jsonOfOptStrList : Option (List String) → Json
  | none => Json.null
  | some l => Json.arr (l.map Json.str)

/-- Handler get_query_list (line 246): echoes the repeatable query_list
parameter (null when absent); the defaulted second parameter does not appear
in the response. -/
def get_query_list (query_list : Option (List String)) :
    List (String × Json) :=
  [("query_list", jsonOfOptStrList query_list)]

/-- Handler get_cookies (line 302). -/
def get_cookies (cookie : Option String) : List (String × Json) :=
  [("cookie", jsonOfOptStr cookie)]

/-- Handler get_header (line 314). -/
def get_header (header : Option String) : List (String × Json) :=
  [("header", jsonOfOptStr header)]

/-- Handler get_header_without_conversion (line 327). -/
def get_header_without_conversion (header : Option String) :
    List (String × Json) :=
  [("header", jsonOfOptStr header)]

/-- Handler get_header_list (line 336). -/
def get_header_list (x_token : Option (List String)) :
    List (String × Json) :=
  [("X-Token values", jsonOfOptStrList x_token)]

/-- Model Item (line 485). -/
structure Item where
  name : String
  description : String
  deriving DecidableEq, Repr

/-- The process-wide lookup table items (line 489), a list of field
dictionaries. -/
def items : List (List (String × Json)) :=
  [[("name", Json.str "Foo"), ("description", Json.str "There comes my hero")],
   [("name", Json.str "Red"), ("description", Json.str "It\x27s my aeroplane")]]

/-- Validation of one dictionary against the Item schema. -/
def Item.ofDict (d : List (String × Json)) : Except String Item := do
  let name ← reqStr d "name"
  let description ← reqStr d "description"
  Except.ok ⟨name, description⟩

/-- Structural serialization of Item. -/
def Item.toJson (it : Item) : Json :=
  Json.obj [("name", Json.str it.name),
    ("description", Json.str it.description)]

/-- Response of GET /items_list/ over an explicit table: the returned list is
revalidated element by element against the response_model List Item; a table
entry failing that validation would escape as an internal error. -/
def get_item_list (table : List (List (String × Json))) : Response :=
  match table.mapM Item.ofDict with
  | Except.error e => Response.internalError e
  | Except.ok l => Response.ok 200 (Json.arr (l.map Item.toJson))

/-! ## Process state and the GET dispatch -/

/-- The mutable process-wide state the handlers can see: the two module-level
lookup tables.  Handlers receive the state and return the state they leave
behind. -/
structure AppState where
  items : List (List (String × Json))
  items_exception : List (String × String)

/-- The state at process start, from the module-level literals. -/
def initialState : AppState := ⟨items, items_exception⟩

/-- One GET request of the catalog, with its already-extracted inputs: raw
path segments where the route declares a typed path parameter, and optional
query / header / cookie values. -/
inductive GetRequest where
  | root
  | itemsRoute (seg : String)
  | modelRoute (seg : String)
  | queryParamsRoute (my_query_param : Int) (my_boolean_query_param : Bool)
      (my_optional_param : Option Int)
  | queryListRoute (query_list : Option (List String))
      (query_list_with_defaults : List String)
  | cookiesRoute (cookie : Option String)
  | headerRoute (header : Option String)
  | headerNoConvRoute (header : Option String)
  | headerListRoute (x_token : Option (List String))
  | itemsListRoute
  | itemsExceptionRoute (seg : String)
  deriving DecidableEq, Repr

/-- Dispatch of one GET request against the current process state: each
handler computes its response from the request and the tables it reads, and
returns the state it leaves behind (no handler writes to the tables). -/
def handleGet : GetRequest → AppState → Response × AppState
  | GetRequest.root, s => (Response.ok 200 (Json.obj read_root), s)
  | GetRequest.itemsRoute seg, s => (route_items seg, s)
  | GetRequest.modelRoute seg, s => (route_model seg, s)
  | GetRequest.queryParamsRoute _ _ _, s =>
      (Response.ok 200 (Json.obj get_query), s)
  | GetRequest.queryListRoute ql _, s =>
      (Response.ok 200 (Json.obj (get_query_list ql)), s)
  | GetRequest.cookiesRoute c, s =>
      (Response.ok 200 (Json.obj (get_cookies c)), s)
  | GetRequest.headerRoute h, s =>
      (Response.ok 200 (Json.obj (get_header h)), s)
  | GetRequest.headerNoConvRoute h, s =>
      (Response.ok 200 (Json.obj (get_header_without_conversion h)), s)
  | GetRequest.headerListRoute xs, s =>
      (Response.ok 200 (Json.obj (get_header_list xs)), s)
  | GetRequest.itemsListRoute, s => (get_item_list s.items, s)
  | GetRequest.itemsExceptionRoute seg, s =>
      (get_item_exception s.items_exception seg, s)

/-! ## POST /files/ and POST /files_multiple/ -/

/-- Handler create_file (line 540): the uploaded content arrives as its full
byte string and the handler reports its length. -/
def create_file (file : List UInt8) : List (String × Json) :=
  [("file_size", Json.int file.length)]

/-- Handler create_files (line 566): one size per uploaded file, in upload
order. -/
def create_files (files : List (List UInt8)) : List (String × Json) :=
  [("file_sizes", Json.arr (files.map (fun file => Json.int file.length)))]

/-! ## Theorems -/

/-- C9: GET / always returns exactly the object with the single pair Hello
mapped to World, with success status 200, for every request to the root
route, whatever the process state. -/
theorem read_root_always_hello_world (s : AppState) :
    handleGet GetRequest.root s =
      (Response.ok 200 (Json.obj [("Hello", Json.str "World")]), s) := rfl

/-- C2: GET /model/lenet answers with the message LeCNN all the images, and a
path segment outside the enumeration, such as bogus, fails as a routing
(not-found) failure, which is distinct from every validation failure. -/
theorem get_model_lenet_and_bogus :
    route_model "lenet" = Response.ok 200 (Json.obj
      [("model_name", Json.str "lenet"),
       ("message", Json.str "LeCNN all the images")]) ∧
    route_model "bogus" = Response.routingFailure ∧
    ∀ errs, Response.routingFailure ≠ Response.validationFailure errs := by
  refine ⟨rfl, rfl, fun errs h => ?_⟩
  exact Response.noConfusion h

/-- C6: GET /items/42 returns the object item_id mapped to the integer 42,
and GET /items/abc fails with a validation failure on the int coercion of
item_id, which is distinct from a routing failure (and the handler is not
invoked on that branch of route_items). -/
theorem read_item_coercion :
    route_items "42" =
      Response.ok 200 (Json.obj [("item_id", Json.int 42)]) ∧
    route_items "abc" =
      Response.validationFailure ["item_id: value is not a valid integer"] ∧
    ∀ errs, Response.validationFailure errs ≠ Response.routingFailure := by
  refine ⟨rfl, rfl, fun errs h => ?_⟩
  exact Response.noConfusion h

/-- C5: GET /items_exception/item_id returns the object item mapped to v
exactly when the lookup table holds v under item_id (so foo yields The Foo
Wrestlers), and a missing key yields the application failure 404 with detail
Item not found. -/
theorem get_item_exception_spec (item_id : String) :
    (∀ v, route_items_exception item_id =
        Response.ok 200 (Json.obj [("item", Json.str v)]) ↔
        lookupTable items_exception item_id = some v) ∧
    (lookupTable items_exception item_id = none →
      route_items_exception item_id =
        Response.appFailure 404 "Item not found") ∧
    route_items_exception "foo" =
      Response.ok 200 (Json.obj [("item", Json.str "The Foo Wrestlers")]) := by
  refine ⟨?_, ?_, rfl⟩
  · intro v
    unfold route_items_exception get_item_exception
    cases hl : lookupTable items_exception item_id with
    | none => simp
    | some w => simp [eq_comm]
  · intro hl
    unfold route_items_exception get_item_exception
    rw [hl]

/-- C5 witness: at the concrete missing key bar the hypothesis of the 404
branch holds and the route produces the application failure. -/
theorem get_item_exception_spec_witness :
    lookupTable items_exception "bar" = none ∧
    route_items_exception "bar" = Response.appFailure 404 "Item not found" :=
  ⟨rfl, (get_item_exception_spec "bar").2.1 rfl⟩

/-- C3: for every valid RequestBody posted to /response_model/, the handler
raises while instantiating MyResponseModel with no arguments (name is
required), so the route produces an internal error instead of the projected
object the specification promises. -/
theorem post_response_model_raises (j : Json) (b : MyRequestBody)
    (fs : List String) (h : MyRequestBody.parse j = Except.ok (b, fs)) :
    route_response_model j =
      Response.internalError "name: field required" := by
  unfold route_response_model
  rw [h]
  rfl

/-- C3 witness: the concrete valid body with name Foo and price 42 parses,
and the route fails with the internal error. -/
theorem post_response_model_raises_witness :
    MyRequestBody.parse (Json.obj [("name", Json.str "Foo"),
        ("price", Json.num 42)]) =
      Except.ok (⟨"Foo", 42, false, none⟩, ["name", "price"]) ∧
    route_response_model (Json.obj [("name", Json.str "Foo"),
        ("price", Json.num 42)]) =
      Response.internalError "name: field required" :=
  ⟨rfl, post_response_model_raises _ _ _ rfl⟩

/-- C8: every GET route of the catalog leaves the process-wide lookup tables
unchanged, so issuing the identical request twice from any state yields the
identical response both times. -/
theorem get_requests_idempotent (req : GetRequest) (s : AppState) :
    (handleGet req s).2 = s ∧
    handleGet req (handleGet req s).2 = handleGet req s := by
  cases req <;> exact ⟨rfl, rfl⟩

/-- C1: for every valid UserIn body posted to /user/, although the handler
returns the UserIn value unchanged, the serialized response is an object
whose keys are exactly the UserOut fields username, email, full_name, and in
particular never contains password. -/
theorem create_user_never_leaks_password (j : Json) (u : UserIn)
    (fs : List String) (h : UserIn.parse j = Except.ok (u, fs)) :
    ∃ body, route_user j = Response.ok 200 (Json.obj body) ∧
      body.map Prod.fst = ["username", "email", "full_name"] ∧
      ¬ "password" ∈ body.map Prod.fst := by
  refine ⟨[("username", Json.str u.username), ("email", Json.str u.email),
    ("full_name", jsonOfOptStr u.full_name)], ?_, rfl, by simp⟩
  unfold route_user
  rw [h]
  rfl

/-- C1 witness: a concrete valid UserIn body (with password supplied) parses,
and the serialized response carries exactly the UserOut fields. -/
theorem create_user_never_leaks_password_witness :
    UserIn.parse (Json.obj [("username", Json.str "alice"),
        ("password", Json.str "secret"),
        ("email", Json.str "alice@example.com")]) =
      Except.ok (⟨"alice", "secret", "alice@example.com", none⟩,
        ["username", "password", "email"]) ∧
    ∃ body, route_user (Json.obj [("username", Json.str "alice"),
        ("password", Json.str "secret"),
        ("email", Json.str "alice@example.com")]) =
      Response.ok 200 (Json.obj body) ∧
      body.map Prod.fst = ["username", "email", "full_name"] ∧
      ¬ "password" ∈ body.map Prod.fst :=
  ⟨rfl, create_user_never_leaks_password _ _ _ rfl⟩

/-- C4: under exclude-unset serialization on /user_no_defaults_in_response/,
two valid UserIn bodies that differ only in whether full_name was explicitly
supplied with the default value null versus omitted serialize differently:
the explicit one keeps the full_name key, the omitted one drops it. -/
theorem exclude_unset_tracks_provenance (un pw em : String) :
    route_user_no_defaults (Json.obj [("username", Json.str un),
        ("password", Json.str pw), ("email", Json.str em),
        ("full_name", Json.null)]) =
      Response.ok 200 (Json.obj [("username", Json.str un),
        ("email", Json.str em), ("full_name", Json.null)]) ∧
    route_user_no_defaults (Json.obj [("username", Json.str un),
        ("password", Json.str pw), ("email", Json.str em)]) =
      Response.ok 200 (Json.obj [("username", Json.str un),
        ("email", Json.str em)]) ∧
    Json.obj [("username", Json.str un), ("email", Json.str em),
        ("full_name", Json.null)] ≠
      Json.obj [("username", Json.str un), ("email", Json.str em)] := by
  refine ⟨rfl, rfl, fun h => ?_⟩
  simp at h

/-- C4 witness: the provenance law at a concrete username, password and
email. -/
theorem exclude_unset_tracks_provenance_witness :
    route_user_no_defaults (Json.obj [("username", Json.str "alice"),
        ("password", Json.str "secret"), ("email", Json.str "a@b.c"),
        ("full_name", Json.null)]) =
      Response.ok 200 (Json.obj [("username", Json.str "alice"),
        ("email", Json.str "a@b.c"), ("full_name", Json.null)]) ∧
    route_user_no_defaults (Json.obj [("username", Json.str "alice"),
        ("password", Json.str "secret"), ("email", Json.str "a@b.c")]) =
      Response.ok 200 (Json.obj [("username", Json.str "alice"),
        ("email", Json.str "a@b.c")]) ∧
    Json.obj [("username", Json.str "alice"), ("email", Json.str "a@b.c"),
        ("full_name", Json.null)] ≠
      Json.obj [("username", Json.str "alice"), ("email", Json.str "a@b.c")] :=
  exclude_unset_tracks_provenance "alice" "secret" "a@b.c"

/-- C7: every valid body posted to /request_body/ is echoed back with all
model fields serialized, the fields absent from the input (hence outside the
provenance set) having taken their declared defaults: optional becomes
false and truly_optional becomes null; in particular the body with name Foo
and price 42 comes back with optional false and truly_optional null. -/
theorem post_body_echoes_with_defaults (j : Json) (b : MyRequestBody)
    (fs : List String) (h : MyRequestBody.parse j = Except.ok (b, fs)) :
    route_request_body j = Response.ok 200 (MyRequestBody.toJson b) ∧
    (¬ "optional" ∈ fs → b.optional = false) ∧
    (¬ "truly_optional" ∈ fs → b.truly_optional = none) ∧
    route_request_body (Json.obj [("name", Json.str "Foo"),
        ("price", Json.num 42)]) =
      Response.ok 200 (Json.obj [("name", Json.str "Foo"),
        ("price", Json.num 42), ("optional", Json.bool false),
        ("truly_optional", Json.null)]) := by
  refine ⟨?_, ?_, ?_, rfl⟩
  · unfold route_request_body
    rw [h]
    rfl
  · intro hopt
    unfold MyRequestBody.parse at h
    cases j
    case obj fields =>
      simp only [bind, Except.bind] at h
      split at h
      any_goals exact Except.noConfusion h
      split at h
      any_goals exact Except.noConfusion h
      split at h
      any_goals exact Except.noConfusion h
      all_goals
        split at h
        any_goals exact Except.noConfusion h
        all_goals
          injection h with h
          injection h with hb hfs
          subst hb hfs
          first
            | rfl
            | exact absurd (by simp) hopt
    all_goals exact Except.noConfusion h
  · intro htopt
    unfold MyRequestBody.parse at h
    cases j
    case obj fields =>
      simp only [bind, Except.bind] at h
      split at h
      any_goals exact Except.noConfusion h
      split at h
      any_goals exact Except.noConfusion h
      split at h
      any_goals exact Except.noConfusion h
      all_goals
        split at h
        any_goals exact Except.noConfusion h
        all_goals
          injection h with h
          injection h with hb hfs
          subst hb hfs
          first
            | rfl
            | exact absurd (by simp) htopt
    all_goals exact Except.noConfusion h

/-- C7 witness: the body with only name and price supplied parses, and the
echo materializes both defaults. -/
theorem post_body_echoes_with_defaults_witness :
    MyRequestBody.parse (Json.obj [("name", Json.str "Foo"),
        ("price", Json.num 42)]) =
      Except.ok (⟨"Foo", 42, false, none⟩, ["name", "price"]) ∧
    route_request_body (Json.obj [("name", Json.str "Foo"),
        ("price", Json.num 42)]) =
      Response.ok 200 (MyRequestBody.toJson ⟨"Foo", 42, false, none⟩) ∧
    (¬ "optional" ∈ ["name", "price"] → false = false) ∧
    (¬ "truly_optional" ∈ ["name", "price"] →
      (none : Option Bool) = none) :=
  ⟨rfl, (post_body_echoes_with_defaults
      (Json.obj [("name", Json.str "Foo"), ("price", Json.num 42)])
      ⟨"Foo", 42, false, none⟩ ["name", "price"] rfl).1,
    fun _ => rfl, fun _ => rfl⟩

/-- C10: POST /files/ reports file_size equal to the exact byte length of the
upload, and POST /files_multiple/ reports file_sizes as a list of the same
length as the upload list whose i-th element is the byte length of the i-th
uploaded file, in upload order. -/
theorem upload_sizes_exact (file : List UInt8) (files : List (List UInt8))
    (i : Nat) (h : i < files.length) :
    lookupField (create_file file) "file_size" =
      some (Json.int file.length) ∧
    ∃ l, lookupField (create_files files) "file_sizes" =
        some (Json.arr l) ∧
      l.length = files.length ∧
      ∃ f, files.get? i = some f ∧
        l.get? i = some (Json.int f.length) := by
  refine ⟨rfl, files.map (fun g => Json.int (g.length : Int)), ?_, by simp,
    files.get ⟨i, h⟩, List.get?_eq_get h, ?_⟩
  · rfl
  · rw [List.get?_eq_getElem?, List.getElem?_map, ← List.get?_eq_getElem?,
      List.get?_eq_get h]
    rfl

/-- C10 witness: two concrete uploads of one and two bytes, checked at index
one. -/
theorem upload_sizes_exact_witness :
    1 < ([[7], [8, 9]] : List (List UInt8)).length ∧
    (lookupField (create_file [7, 8]) "file_size" =
        some (Json.int ([7, 8] : List UInt8).length) ∧
      ∃ l, lookupField (create_files [[7], [8, 9]]) "file_sizes" =
          some (Json.arr l) ∧
        l.length = ([[7], [8, 9]] : List (List UInt8)).length ∧
        ∃ f, ([[7], [8, 9]] : List (List UInt8)).get? 1 = some f ∧
          l.get? 1 = some (Json.int f.length)) :=
  ⟨by decide, upload_sizes_exact [7, 8] [[7], [8, 9]] 1 (by decide)⟩

end FastapiHelloWorld
